import Mathlib

/-!
Verification of the GenZyFits catalog API (src/main.py, src/schemas.py).

The document store is shallowly embedded: a collection is an association
list from generated id strings to documents; product documents are
schema-flexible association lists from field names to JSON-like values
(so a document may lack a field such as "price"); review and order
documents use the fixed record shapes the handlers construct.  Python
floats are modelled as exact rationals; `round(x, 2)` is modelled as
round-half-to-even at 2 decimal places.  HTTP failures are `Except Nat`
carrying the status code.
-/

/-- A JSON-like field value as stored in a product document. -/
inductive Value where
  | str (s : String)
  | num (q : ℚ)
  | boolOf (b : Bool)
  | strList (l : List String)
deriving DecidableEq

/-- A schema-flexible document: an association list of named fields. -/
def Doc : Type := List (String × Value)

instance : DecidableEq Doc := by
  unfold Doc
  infer_instance

/-- Field lookup, the model of Python's `doc.get(key)` (None when absent). -/
def docGet (d : Doc) (k : String) : Option Value :=
  (d.find? (fun kv => kv.1 == k)).map (fun kv => kv.2)

/-- `main.py` `ReviewIn`: the request model of POST /reviews.  Note that it
declares `rating: int` with no bounds. -/
structure ReviewIn where
  product_id : String
  user_name : String
  rating : Int
  comment : Option String
deriving DecidableEq

/-- `main.py` `CheckoutItem`: the request model of POST /checkout items.
Note that it declares `size: Optional[str]` (no enum) and `quantity: int = 1`
(no lower bound). -/
structure CheckoutItem where
  product_id : String
  size : Option String
  quantity : Int
deriving DecidableEq

/-- `main.py` `CheckoutRequest`. -/
structure CheckoutRequest where
  email : String
  items : List CheckoutItem
deriving DecidableEq

/-- One entry of the `line_items` list built by `fast_checkout`. -/
structure LineItem where
  title : Option Value
  size : Option String
  quantity : Int
  unit_price : ℚ
  line_total : ℚ
deriving DecidableEq

/-- The order document persisted by `fast_checkout`. -/
structure OrderDoc where
  email : String
  items : List LineItem
  total : ℚ
  status : String
deriving DecidableEq

/-- The document store: one association list (generated id ↦ document) per
collection used by the handlers (`product`, `review`, `order`). -/
structure Store where
  product : List (String × Doc)
  review : List (String × ReviewIn)
  order : List (String × OrderDoc)
deriving DecidableEq

/-- A hexadecimal digit, upper or lower case. -/
def isHexChar (c : Char) : Bool :=
  c.isDigit || (Char.ofNat 97 ≤ c && c ≤ Char.ofNat 102) ||
    (Char.ofNat 65 ≤ c && c ≤ Char.ofNat 70)

/-- A string parses as a BSON ObjectId iff it is 24 hex characters. -/
def validOid (s : String) : Bool :=
  s.length == 24 && s.toList.all isHexChar

/-- Lower-casing of one ASCII character. -/
def charToLower (c : Char) : Char :=
  if 65 ≤ c.toNat ∧ c.toNat ≤ 90 then Char.ofNat (c.toNat + 32) else c

/-- Lower-casing of a string, character by character. -/
def strToLower (s : String) : String :=
  String.mk (s.data.map charToLower)

/-- `main.py` `oid`: validate an externally supplied id string, raising
HTTP 400 on malformed input.  A valid hex string is normalised to lower
case (ObjectId equality is on the decoded bytes, and serialisation is
lower-case). -/
def oid (s : String) : Except Nat String :=
  if validOid s then Except.ok (strToLower s) else Except.error 400

/-- `database.create_document`: insert one record into a collection under
its generated id, which the driver supplies. -/
def create_document (coll : List (String × α)) (newId : String) (d : α) :
    List (String × α) :=
  coll ++ [(newId, d)]

/-- Whether a document satisfies an equality filter.
Modelled from the spec: `database.py` is not under src/; section 4.2 defines
`get_documents`' filter as equality-based — each filter key must equal the
corresponding stored field value, AND semantics across multiple keys. -/
def matchesFilter (filt : List (String × Value)) (d : Doc) : Bool :=
  filt.all (fun kv => decide (docGet d kv.1 = some kv.2))

/-- Modelled from the spec: `database.py`'s `get_documents` is not under
src/; section 4.2: return the records matching the equality filter, all
records when the filter is empty, in stable store order. -/
def get_documents (coll : List (String × Doc)) (filt : List (String × Value)) :
    List (String × Doc) :=
  coll.filter (fun p => matchesFilter filt p.2)

/-- The store driver's `find_one({"_id": i})`: point lookup by id. -/
def find_by_id (coll : List (String × α)) (i : String) : Option α :=
  (coll.find? (fun p => p.1 == i)).map (fun p => p.2)

/-- Round half to even at the integer, the semantics of Python's `round`. -/
def roundHalfEven (q : ℚ) : ℤ :=
  if q - Int.floor q < 1/2 then Int.floor q
  else if q - Int.floor q > 1/2 then Int.floor q + 1
  else if Int.floor q % 2 = 0 then Int.floor q else Int.floor q + 1

/-- Python's `round(x, 2)`. -/
def round2 (q : ℚ) : ℚ :=
  (roundHalfEven (q * 100) : ℚ) / 100

namespace Schemas

/-- `schemas.py` `Review.rating`: `Field(..., ge=1, le=5)`. -/
def reviewRatingOk (r : Int) : Bool :=
  decide (1 ≤ r) && decide (r ≤ 5)

/-- `schemas.py` size literals `XS|S|M|L|XL`. -/
def sizeLiterals : List String := ["XS", "S", "M", "L", "XL"]

/-- `schemas.py` `OrderItem.quantity`: `Field(1, ge=1)`. -/
def orderItemQuantityOk (q : Int) : Bool :=
  decide (1 ≤ q)

/-- `schemas.py` `OrderItem.size`: `Optional[Literal['XS','S','M','L','XL']]`. -/
def orderItemSizeOk : Option String → Bool
  | none => true
  | some s => Schemas.sizeLiterals.contains s

end Schemas

/-- `main.py` `ReviewIn.rating` declares `rating: int` with no range
constraint, so input parsing accepts every integer rating. -/
def reviewInRatingOk (_ : Int) : Bool := true

/-- `main.py` `CheckoutItem` declares `quantity: int = 1` and
`size: Optional[str]` with no constraints, so input parsing accepts every
integer quantity and every string size. -/
def checkoutItemOk (_ : CheckoutItem) : Bool := true

/-- The first fixed sample product of `main.py` `seed_products`. -/
def sampleHoodie : Doc :=
  [ ("title", Value.str "Neon Flux Hoodie"),
      ("slug", Value.str "neon-flux-hoodie"),
      ("description", Value.str "Oversized hoodie with neon gradient print"),
      ("price", Value.num 89),
      ("category", Value.str "Streetwear"),
      ("images", Value.strList
        [ "https://images.unsplash.com/photo-1541099649105-f69ad21f3246?q=80&w=1400&auto=format&fit=crop",
          "https://images.unsplash.com/photo-1520975922284-7b683db0352b?q=80&w=1400&auto=format&fit=crop" ]),
      ("sizes", Value.strList ["S", "M", "L", "XL"]),
      ("tags", Value.strList ["best", "seasonal"]),
      ("rating", Value.num (47/10)),
      ("rating_count", Value.num 243),
      ("in_stock", Value.boolOf true) ]

/-- The second fixed sample product of `main.py` `seed_products`. -/
def sampleTee : Doc :=
  [ ("title", Value.str "Ripple Tee"),
      ("slug", Value.str "ripple-tee"),
      ("description", Value.str "Boxy fit tee with wave puff print"),
      ("price", Value.num 39),
      ("category", Value.str "Casual"),
      ("images", Value.strList
        [ "https://images.unsplash.com/photo-1520975693416-35a6a199d470?q=80&w=1400&auto=format&fit=crop" ]),
      ("sizes", Value.strList ["XS", "S", "M", "L"]),
      ("tags", Value.strList ["new"]),
      ("rating", Value.num (44/10)),
      ("rating_count", Value.num 91),
      ("in_stock", Value.boolOf true) ]

/-- The third fixed sample product of `main.py` `seed_products`. -/
def sampleCrew : Doc :=
  [ ("title", Value.str "Core Knit Crew"),
      ("slug", Value.str "core-knit-crew"),
      ("description", Value.str "Premium heavyweight knit crewneck"),
      ("price", Value.num 69),
      ("category", Value.str "Essentials"),
      ("images", Value.strList
        [ "https://images.unsplash.com/photo-1521577352947-9bb58764b69a?q=80&w=1400&auto=format&fit=crop" ]),
      ("sizes", Value.strList ["S", "M", "L", "XL"]),
      ("tags", Value.strList ["best"]),
      ("rating", Value.num (48/10)),
      ("rating_count", Value.num 512),
      ("in_stock", Value.boolOf true) ]

/-- The three fixed sample products of `main.py` `seed_products`. -/
def sampleProducts : List Doc := [sampleHoodie, sampleTee, sampleCrew]

/-- `main.py` `seed_products` (POST /seed): 500 when the store is
unavailable; no-op reporting `seeded=False` when the product collection is
non-empty; otherwise insert the three samples (ids supplied by the driver)
and report `seeded=True`.  Returns the response and the resulting store. -/
def seed_products (dbq : Option Store) (i1 i2 i3 : String) :
    Except Nat Bool × Option Store :=
  match dbq with
  | none => (Except.error 500, none)
  | some db =>
    if db.product.length > 0 then (Except.ok false, some db)
    else
      let prods :=
        create_document
          (create_document
            (create_document db.product i1 sampleHoodie)
            i2 sampleTee)
          i3 sampleCrew
      (Except.ok true, some { db with product := prods })

/-- `main.py` `list_products` (GET /products): empty list when the store is
unavailable; otherwise build an equality filter from the truthy (present and
non-empty) `tag` and `category` query parameters and return the matching
product records with their ids. -/
def list_products (dbq : Option Store) (tag category : Option String) :
    List (String × Doc) :=
  match dbq with
  | none => []
  | some db =>
    let filt₁ : List (String × Value) :=
      match tag with
      | some t => if t ≠ "" then [("tags", Value.str t)] else []
      | none => []
    let filt₂ : List (String × Value) :=
      match category with
      | some c => if c ≠ "" then [("category", Value.str c)] else []
      | none => []
    get_documents db.product (filt₁ ++ filt₂)

/-- `main.py` `get_product` (GET /products/\x7bproduct_id\x7d): 500 when the
store is unavailable, 400 on a malformed id (raised by `oid` before the
lookup), 404 when no product has that id, otherwise the document with its
id string. -/
def get_product (dbq : Option Store) (product_id : String) :
    Except Nat (String × Doc) :=
  match dbq with
  | none => Except.error 500
  | some db =>
    match oid product_id with
    | Except.error e => Except.error e
    | Except.ok pid =>
      match find_by_id db.product pid with
      | none => Except.error 404
      | some d => Except.ok (pid, d)

/-- `main.py` `get_reviews` (GET /reviews/\x7bproduct_id\x7d): empty list when
the store is unavailable; otherwise the reviews whose `product_id` field
equals the given string (the `get_documents` equality filter specialised to
the review collection). -/
def get_reviews (dbq : Option Store) (product_id : String) :
    List (String × ReviewIn) :=
  match dbq with
  | none => []
  | some db => db.review.filter (fun p => p.2.product_id == product_id)

/-- `main.py` `create_review` (POST /reviews): 500 when the store is
unavailable, 400 when `oid` rejects the payload's product_id or no product
has that id, otherwise persist the payload and return the generated id. -/
def create_review (dbq : Option Store) (payload : ReviewIn) (newId : String) :
    Except Nat String × Option Store :=
  match dbq with
  | none => (Except.error 500, none)
  | some db =>
    match oid payload.product_id with
    | Except.error e => (Except.error e, some db)
    | Except.ok pid =>
      match find_by_id db.product pid with
      | none => (Except.error 400, some db)
      | some _ =>
        (Except.ok newId,
         some { db with review := create_document db.review newId payload })

/-- Python's `float(prod.get("price", 0))`: the price field's number, 0
when the field is absent. -/
def priceOf (d : Doc) : ℚ :=
  match docGet d "price" with
  | some (Value.num q) => q
  | _ => 0

/-- The item loop of `fast_checkout`: resolve each item's product (400 on a
malformed or unmatched id aborts the whole request), accumulate the line
items and the running total left to right. -/
def checkoutLoop (coll : List (String × Doc)) :
    List CheckoutItem → ℚ → List LineItem → Except Nat (List LineItem × ℚ)
  | [], total, acc => Except.ok (acc, total)
  | it :: rest, total, acc =>
    match oid it.product_id with
    | Except.error e => Except.error e
    | Except.ok pid =>
      match find_by_id coll pid with
      | none => Except.error 400
      | some prod =>
        checkoutLoop coll rest (total + priceOf prod * (it.quantity : ℚ))
          (acc ++ [⟨docGet prod "title", it.size, it.quantity,
                    priceOf prod, priceOf prod * (it.quantity : ℚ)⟩])

/-- `main.py` `fast_checkout` (POST /checkout): 500 when the store is
unavailable; run the item loop; on success persist the order document with
the total rounded to 2 decimal places and return the generated order id and
that total.  Returns the response and the resulting store. -/
def fast_checkout (dbq : Option Store) (req : CheckoutRequest)
    (newId : String) : Except Nat (String × ℚ) × Option Store :=
  match dbq with
  | none => (Except.error 500, none)
  | some db =>
    match checkoutLoop db.product req.items 0 [] with
    | Except.error e => (Except.error e, some db)
    | Except.ok (lines, total) =>
      let orders :=
        create_document db.order newId
          ⟨req.email, lines, round2 total, "created"⟩
      (Except.ok (newId, round2 total), some { db with order := orders })

/-- Resolution of a checkout item to its product document (None when `oid`
rejects the id or no product matches). -/
def resolveItem (coll : List (String × Doc)) (it : CheckoutItem) : Option Doc :=
  match oid it.product_id with
  | Except.error _ => none
  | Except.ok pid => find_by_id coll pid

/-- The line item the checkout loop builds for a resolved item. -/
def specLine (coll : List (String × Doc)) (it : CheckoutItem) : LineItem :=
  match resolveItem coll it with
  | some d => ⟨docGet d "title", it.size, it.quantity, priceOf d,
               priceOf d * (it.quantity : ℚ)⟩
  | none => ⟨none, it.size, it.quantity, 0, 0⟩

/-- The specification-side total: the sum over the items of the resolved
product's price times the item's quantity. -/
def specTotal (coll : List (String × Doc)) (items : List CheckoutItem) : ℚ :=
  (items.map (fun it =>
    match resolveItem coll it with
    | some d => priceOf d * (it.quantity : ℚ)
    | none => 0)).sum

deriving instance DecidableEq for Except

/-- A well-formed product id used in concrete instances. -/
def idA : String := "aaaaaaaaaaaaaaaaaaaaaaaa"

/-- A second well-formed product id used in concrete instances. -/
def idB : String := "bbbbbbbbbbbbbbbbbbbbbbbb"

/-- A concrete product document priced at 10. -/
def prodA : Doc :=
  [("title", Value.str "A"), ("price", Value.num 10),
   ("category", Value.str "Casual"), ("tags", Value.strList ["best"])]

/-- A concrete product document priced at 5. -/
def prodB : Doc :=
  [("title", Value.str "B"), ("price", Value.num 5),
   ("category", Value.str "Streetwear")]

/-- A concrete store holding the two products above. -/
def dbW : Store := ⟨[(idA, prodA), (idB, prodB)], [], []⟩

/-- The checkout request of the spec's worked example: quantity 2 of the
price-10 product and quantity 3 of the price-5 product. -/
def reqW : CheckoutRequest := ⟨"u@x.com", [⟨idA, some "M", 2⟩, ⟨idB, none, 3⟩]⟩

/-- The store with no documents at all. -/
def emptyStore : Store := ⟨[], [], []⟩

/-- `n` successive calls of POST /seed, the driver supplying generated ids
through `f`. -/
def seedIter : Nat → Option Store → (Nat → String) → Option Store
  | 0, s, _ => s
  | n+1, s, f =>
    (seed_products (seedIter n s f) (f (3*n)) (f (3*n+1)) (f (3*n+2))).2

/-- The number of persisted products (0 when the store is unavailable). -/
def productCount : Option Store → Nat
  | none => 0
  | some db => db.product.length

/-- A review payload whose rating is 6, outside the 1–5 range that
`schemas.py` declares. -/
def ratingSixReview : ReviewIn := ⟨"aaaaaaaaaaaaaaaaaaaaaaaa", "sam", 6, none⟩

/-- A checkout item with quantity 0 and size "XXL", both outside the
constraints that `schemas.py`'s `OrderItem` declares. -/
def badItem : CheckoutItem := ⟨"aaaaaaaaaaaaaaaaaaaaaaaa", some "XXL", 0⟩

/-- A concrete product document with no price field. -/
def prodNoPrice : Doc := [("title", Value.str "C"), ("category", Value.str "Casual")]

/-- A concrete store whose single product has no price field. -/
def dbNoPrice : Store := ⟨[(idA, prodNoPrice)], [], []⟩

theorem oid_error_is_400 (s : String) (e : Nat) (h : oid s = Except.error e) :
    e = 400 := by
  unfold oid at h
  by_cases hv : validOid s = true
  · simp [hv] at h
  · simp [hv] at h
    exact h.symm

theorem checkoutLoop_cons_some (coll : List (String × Doc)) (it : CheckoutItem)
    (rest : List CheckoutItem) (total : ℚ) (acc : List LineItem) (d : Doc)
    (hd : resolveItem coll it = some d) :
    checkoutLoop coll (it :: rest) total acc =
      checkoutLoop coll rest (total + priceOf d * (it.quantity : ℚ))
        (acc ++ [⟨docGet d "title", it.size, it.quantity, priceOf d,
                  priceOf d * (it.quantity : ℚ)⟩]) := by
  unfold resolveItem at hd
  cases hoid : oid it.product_id with
  | error e => rw [hoid] at hd; simp at hd
  | ok pid =>
    rw [hoid] at hd
    simp only at hd
    simp only [checkoutLoop, hoid, hd]

theorem checkoutLoop_cons_none (coll : List (String × Doc)) (it : CheckoutItem)
    (rest : List CheckoutItem) (total : ℚ) (acc : List LineItem)
    (hd : resolveItem coll it = none) :
    checkoutLoop coll (it :: rest) total acc = Except.error 400 := by
  unfold resolveItem at hd
  cases hoid : oid it.product_id with
  | error e =>
    have he : e = 400 := oid_error_is_400 it.product_id e hoid
    simp only [checkoutLoop, hoid, he]
  | ok pid =>
    rw [hoid] at hd
    simp only at hd
    simp only [checkoutLoop, hoid, hd]

theorem specLine_of_resolve (coll : List (String × Doc)) (it : CheckoutItem)
    (d : Doc) (hd : resolveItem coll it = some d) :
    specLine coll it = ⟨docGet d "title", it.size, it.quantity, priceOf d,
                        priceOf d * (it.quantity : ℚ)⟩ := by
  simp [specLine, hd]

theorem specTotal_cons (coll : List (String × Doc)) (it : CheckoutItem)
    (rest : List CheckoutItem) (d : Doc) (hd : resolveItem coll it = some d) :
    specTotal coll (it :: rest) =
      priceOf d * (it.quantity : ℚ) + specTotal coll rest := by
  simp [specTotal, hd]

theorem checkoutLoop_resolves (coll : List (String × Doc)) :
    ∀ (items : List CheckoutItem) (total : ℚ) (acc : List LineItem),
    (∀ it ∈ items, (resolveItem coll it).isSome) →
    checkoutLoop coll items total acc =
      Except.ok (acc ++ items.map (specLine coll), total + specTotal coll items) := by
  intro items
  induction items with
  | nil => intro total acc _; simp [checkoutLoop, specTotal]
  | cons it rest ih =>
    intro total acc h
    obtain ⟨d, hd⟩ :=
      Option.isSome_iff_exists.mp (h it (List.mem_cons_self _ _))
    rw [checkoutLoop_cons_some coll it rest total acc d hd]
    rw [ih _ _ (fun x hx => h x (List.mem_cons_of_mem _ hx))]
    rw [List.map_cons, specLine_of_resolve coll it d hd, specTotal_cons coll it rest d hd]
    simp [List.append_assoc, add_assoc]

theorem checkoutLoop_unresolved (coll : List (String × Doc)) :
    ∀ (items : List CheckoutItem) (total : ℚ) (acc : List LineItem),
    (∃ it ∈ items, resolveItem coll it = none) →
    checkoutLoop coll items total acc = Except.error 400 := by
  intro items
  induction items with
  | nil => intro total acc h; simp at h
  | cons it rest ih =>
    intro total acc h
    cases hres : resolveItem coll it with
    | none => exact checkoutLoop_cons_none coll it rest total acc hres
    | some d =>
      rw [checkoutLoop_cons_some coll it rest total acc d hres]
      apply ih
      obtain ⟨x, hx, hxnone⟩ := h
      rcases List.mem_cons.mp hx with hxeq | hxrest
      · rw [hxeq] at hxnone; rw [hxnone] at hres; simp at hres
      · exact ⟨x, hxrest, hxnone⟩

/-- C1: when every requested item resolves to an existing product, POST
/checkout succeeds, and both the returned total and the total of the
persisted order document equal the sum over the items of the resolved
product's price times the item's quantity, rounded to 2 decimal places. -/
theorem checkout_total_is_rounded_price_sum (db : Store) (req : CheckoutRequest)
    (nid : String) (h : ∀ it ∈ req.items, (resolveItem db.product it).isSome) :
    fast_checkout (some db) req nid =
      (Except.ok (nid, round2 (specTotal db.product req.items)),
       some { db with order := db.order ++
         [(nid, ⟨req.email, req.items.map (specLine db.product),
                 round2 (specTotal db.product req.items), "created"⟩)] }) := by
  simp only [fast_checkout]
  rw [checkoutLoop_resolves db.product req.items 0 [] h]
  simp [create_document]

/-- C1 witness: the spec's worked example — items [(price 10, qty 2),
(price 5, qty 3)] give total 35, returned and persisted. -/
theorem checkout_total_is_rounded_price_sum_witness :
    (∀ it ∈ reqW.items, (resolveItem dbW.product it).isSome) ∧
    fast_checkout (some dbW) reqW "cccccccccccccccccccccccc" =
      (Except.ok ("cccccccccccccccccccccccc", 35),
       some { dbW with order :=
         [("cccccccccccccccccccccccc",
           ⟨"u@x.com",
            [⟨some (Value.str "A"), some "M", 2, 10, 20⟩,
             ⟨some (Value.str "B"), none, 3, 5, 15⟩], 35, "created"⟩)] }) := by
  have hA : resolveItem dbW.product ⟨idA, some "M", 2⟩ = some prodA := by decide
  have hB : resolveItem dbW.product ⟨idB, none, 3⟩ = some prodB := by decide
  have hpA : priceOf prodA = 10 := by decide
  have hpB : priceOf prodB = 5 := by decide
  have ht1 : docGet prodA "title" = some (Value.str "A") := by decide
  have ht2 : docGet prodB "title" = some (Value.str "B") := by decide
  have hitems : reqW.items = [⟨idA, some "M", 2⟩, ⟨idB, none, 3⟩] := rfl
  have htot : specTotal dbW.product reqW.items = 35 := by
    rw [specTotal, hitems]
    simp [hA, hB, hpA, hpB]
    norm_num
  have hr : round2 (35 : ℚ) = 35 := by norm_num [round2, roundHalfEven]
  have hlines : reqW.items.map (specLine dbW.product) =
      [⟨some (Value.str "A"), some "M", 2, 10, 20⟩,
       ⟨some (Value.str "B"), none, 3, 5, 15⟩] := by
    rw [hitems]
    simp [specLine, hA, hB, hpA, hpB, ht1, ht2]
    norm_num
  refine ⟨by decide, ?_⟩
  rw [checkout_total_is_rounded_price_sum dbW reqW "cccccccccccccccccccccccc"
    (by decide), htot, hr, hlines]
  decide

/-- C2: when at least one requested item fails to resolve to an existing
product, POST /checkout returns 400 and leaves the store — in particular
the order collection — unchanged, so an order is written only after every
item has resolved. -/
theorem checkout_unresolvable_aborts (db : Store) (req : CheckoutRequest)
    (nid : String) (h : ∃ it ∈ req.items, resolveItem db.product it = none) :
    fast_checkout (some db) req nid = (Except.error 400, some db) := by
  simp only [fast_checkout]
  rw [checkoutLoop_unresolved db.product req.items 0 [] h]

/-- C2 witness: a request mixing a resolvable item with an id that matches
no product is rejected with 400 and the store is untouched. -/
theorem checkout_unresolvable_aborts_witness :
    (∃ it ∈ [(⟨idA, none, 1⟩ : CheckoutItem), ⟨idB, none, 2⟩,
             ⟨"ffffffffffffffffffffffff", none, 1⟩],
       resolveItem dbW.product it = none) ∧
    fast_checkout (some dbW)
      ⟨"u@x.com", [⟨idA, none, 1⟩, ⟨idB, none, 2⟩,
                   ⟨"ffffffffffffffffffffffff", none, 1⟩]⟩ "cccccccccccccccccccccccc" =
      (Except.error 400, some dbW) :=
  ⟨by decide,
   checkout_unresolvable_aborts dbW
     ⟨"u@x.com", [⟨idA, none, 1⟩, ⟨idB, none, 2⟩,
                  ⟨"ffffffffffffffffffffffff", none, 1⟩]⟩
     "cccccccccccccccccccccccc" (by decide)⟩

/-- C3 (code bug): `main.py`'s `ReviewIn` omits the `ge=1, le=5` bound that
`schemas.py`'s `Review` declares for `rating`, so a POST /reviews payload
with rating 6 passes input validation, reaches the handler body and is
persisted, instead of failing with a ValidationError. -/
theorem review_rating_bound_unchecked :
    reviewInRatingOk ratingSixReview.rating = true ∧
    Schemas.reviewRatingOk ratingSixReview.rating = false ∧
    create_review (some dbW) ratingSixReview "dddddddddddddddddddddddd" =
      (Except.ok "dddddddddddddddddddddddd",
       some { dbW with review := [("dddddddddddddddddddddddd", ratingSixReview)] }) := by
  refine ⟨rfl, by decide, ?_⟩
  decide

/-- C4 (code bug): `main.py`'s `CheckoutItem` omits the `ge=1` quantity
bound and the `XS|S|M|L|XL` size enum that `schemas.py`'s `OrderItem`
declares, so a checkout item with quantity 0 and size "XXL" passes input
validation; the handler looks the product up and persists an order instead
of rejecting the request with a ValidationError. -/
theorem checkout_item_constraints_unchecked :
    checkoutItemOk badItem = true ∧
    Schemas.orderItemQuantityOk badItem.quantity = false ∧
    Schemas.orderItemSizeOk badItem.size = false ∧
    fast_checkout (some dbW) ⟨"z@x.com", [badItem]⟩ "eeeeeeeeeeeeeeeeeeeeeeee" =
      (Except.ok ("eeeeeeeeeeeeeeeeeeeeeeee", 0),
       some { dbW with order :=
         [("eeeeeeeeeeeeeeeeeeeeeeee",
           ⟨"z@x.com", [⟨some (Value.str "A"), some "XXL", 0, 10, 0⟩],
            0, "created"⟩)] }) := by
  refine ⟨rfl, by decide, by decide, ?_⟩
  have hA : resolveItem dbW.product badItem = some prodA := by decide
  have hpA : priceOf prodA = 10 := by decide
  have ht1 : docGet prodA "title" = some (Value.str "A") := by decide
  have hq : badItem.quantity = 0 := rfl
  have hsz : badItem.size = some "XXL" := rfl
  have hr : round2 (0 : ℚ) = 0 := by norm_num [round2, roundHalfEven]
  simp only [fast_checkout]
  rw [checkoutLoop_cons_some dbW.product badItem [] 0 [] prodA hA]
  simp only [checkoutLoop, hpA, ht1, hq, hsz]
  norm_num [hr, create_document, dbW]

/-- C5: GET /products/\x7bid\x7d — with the store available, a malformed id
yields 400 whatever the store holds (the check precedes the lookup), a
well-formed id matching no product yields 404, and an unavailable store
yields 500. -/
theorem get_product_status_codes (db : Store) (s1 s2 s3 : String)
    (h2 : validOid s2 = false) (h3 : validOid s3 = true)
    (h4 : find_by_id db.product (strToLower s3) = none) :
    get_product none s1 = Except.error 500 ∧
    get_product (some db) s2 = Except.error 400 ∧
    get_product (some db) s3 = Except.error 404 := by
  refine ⟨rfl, ?_, ?_⟩
  · simp [get_product, oid, h2]
  · simp [get_product, oid, h3, h4]

/-- C5 witness: "zz" is malformed (400), a 24-hex id absent from the store
is well-formed but unmatched (404), and the unavailable store gives 500. -/
theorem get_product_status_codes_witness :
    validOid "zz" = false ∧
    validOid "ffffffffffffffffffffffff" = true ∧
    find_by_id dbW.product (strToLower "ffffffffffffffffffffffff") = none ∧
    (get_product none "zz" = Except.error 500 ∧
     get_product (some dbW) "zz" = Except.error 400 ∧
     get_product (some dbW) "ffffffffffffffffffffffff" = Except.error 404) :=
  ⟨by decide, by decide, by decide,
   get_product_status_codes dbW "zz" "zz" "ffffffffffffffffffffffff"
     (by decide) (by decide) (by decide)⟩

theorem seed_products_of_empty (db : Store) (i1 i2 i3 : String)
    (h : db.product = []) :
    seed_products (some db) i1 i2 i3 =
      (Except.ok true,
       some { db with product :=
         [(i1, sampleHoodie), (i2, sampleTee), (i3, sampleCrew)] }) := by
  simp [seed_products, h, create_document]

theorem seed_products_of_nonempty (db : Store) (i1 i2 i3 : String)
    (h : db.product ≠ []) :
    seed_products (some db) i1 i2 i3 = (Except.ok false, some db) := by
  have hl : 0 < db.product.length := List.length_pos.mpr h
  simp [seed_products, hl]

theorem seedIter_from_empty (f : Nat → String) :
    ∀ n : Nat, 1 ≤ n → ∃ db : Store,
      seedIter n (some emptyStore) f = some db ∧ db.product.length = 3 := by
  intro n
  induction n with
  | zero => intro h; exact absurd h (by decide)
  | succ m ih =>
    intro _
    by_cases hm : 1 ≤ m
    · obtain ⟨db, hdb, hlen⟩ := ih hm
      refine ⟨db, ?_, hlen⟩
      have hne : db.product ≠ [] := by
        intro hnil
        rw [hnil] at hlen
        simp at hlen
      simp only [seedIter, hdb]
      rw [seed_products_of_nonempty db _ _ _ hne]
    · have hm0 : m = 0 := by omega
      subst hm0
      refine ⟨{ emptyStore with product :=
        [(f 0, sampleHoodie), (f (0+1), sampleTee), (f (0+2), sampleCrew)] }, ?_, rfl⟩
      simp only [seedIter]
      rw [seed_products_of_empty emptyStore _ _ _ rfl]

/-- C6: POST /seed inserts exactly the 3 fixed sample products when the
product collection is empty, is a no-op reporting not-seeded when it is
non-empty, and iterating it any positive number of times from an empty
store leaves exactly 3 products. -/
theorem seed_idempotent (db : Store) (i1 i2 i3 : String) (f : Nat → String)
    (n : Nat) (hn : 1 ≤ n) :
    (db.product = [] →
      seed_products (some db) i1 i2 i3 =
        (Except.ok true,
         some { db with product :=
           [(i1, sampleHoodie), (i2, sampleTee), (i3, sampleCrew)] })) ∧
    (db.product ≠ [] →
      seed_products (some db) i1 i2 i3 = (Except.ok false, some db)) ∧
    productCount (seedIter n (some emptyStore) f) = 3 := by
  refine ⟨seed_products_of_empty db i1 i2 i3,
          seed_products_of_nonempty db i1 i2 i3, ?_⟩
  obtain ⟨db', hdb', hlen⟩ := seedIter_from_empty f n hn
  rw [hdb']
  exact hlen

/-- C6 witness: two successive seeds of the empty store leave exactly the
3 sample products. -/
theorem seed_idempotent_witness :
    1 ≤ 2 ∧ productCount (seedIter 2 (some emptyStore) (fun _ => idA)) = 3 :=
  ⟨by decide,
   (seed_idempotent emptyStore idA idA idA (fun _ => idA) 2 (by decide)).2.2⟩

/-- C7: with the store unavailable, both list endpoints degrade to an empty
list, while POST /seed, GET /products/\x7bid\x7d, POST /reviews and
POST /checkout all fail with 500. -/
theorem store_unavailable_behaviour (tag category : Option String)
    (s pid nid i1 i2 i3 : String) (r : ReviewIn) (req : CheckoutRequest) :
    list_products none tag category = [] ∧
    get_reviews none pid = [] ∧
    seed_products none i1 i2 i3 = (Except.error 500, none) ∧
    get_product none s = Except.error 500 ∧
    create_review none r nid = (Except.error 500, none) ∧
    fast_checkout none req nid = (Except.error 500, none) :=
  ⟨rfl, rfl, rfl, rfl, rfl, rfl⟩

/-- C8: with a non-empty category parameter, GET /products returns exactly
the products whose category field equals the given string (exact,
case-sensitive equality), and with both tag and category supplied a
product is returned iff it matches both filters. -/
theorem category_filter_exact (db : Store) (tag cat : String)
    (htag : tag ≠ "") (hcat : cat ≠ "") :
    list_products (some db) none (some cat) =
      db.product.filter
        (fun p => decide (docGet p.2 "category" = some (Value.str cat))) ∧
    (∀ p, p ∈ list_products (some db) (some tag) (some cat) ↔
      p ∈ db.product ∧ docGet p.2 "tags" = some (Value.str tag) ∧
        docGet p.2 "category" = some (Value.str cat)) := by
  constructor
  · simp [list_products, get_documents, matchesFilter, hcat]
  · intro p
    simp [list_products, get_documents, matchesFilter, htag, hcat,
          List.mem_filter, and_assoc]

/-- C8 witness: filtering the two-product store by category "Casual"
returns exactly the "Casual" product. -/
theorem category_filter_exact_witness :
    ("best" : String) ≠ "" ∧ ("Casual" : String) ≠ "" ∧
    list_products (some dbW) none (some "Casual") = [(idA, prodA)] :=
  ⟨by decide, by decide,
   ((category_filter_exact dbW "best" "Casual" (by decide) (by decide)).1).trans
     (by decide)⟩

/-- C9: GET /products treats an empty-string tag or category query
parameter as absent — the filter key is omitted and all products are
returned — exactly as when the parameter is missing. -/
theorem empty_query_params_treated_absent (db : Store) :
    list_products (some db) (some "") (some "") = db.product ∧
    list_products (some db) (some "") none = db.product ∧
    list_products (some db) none (some "") = db.product ∧
    list_products (some db) none none = db.product := by
  refine ⟨?_, ?_, ?_, ?_⟩ <;>
    simp [list_products, get_documents, matchesFilter]

/-- C10: a resolved product document with no price field is costed at
unit_price 0: its line contributes 0 and checkout succeeds instead of
failing. -/
theorem missing_price_defaults_to_zero (db : Store) (it : CheckoutItem)
    (d : Doc) (email nid : String)
    (hres : resolveItem db.product it = some d)
    (hprice : docGet d "price" = none) :
    priceOf d = 0 ∧
    fast_checkout (some db) ⟨email, [it]⟩ nid =
      (Except.ok (nid, 0),
       some { db with order := db.order ++
         [(nid, ⟨email, [⟨docGet d "title", it.size, it.quantity, 0, 0⟩],
                 0, "created"⟩)] }) := by
  have hp : priceOf d = 0 := by simp [priceOf, hprice]
  have hr : round2 (0 : ℚ) = 0 := by norm_num [round2, roundHalfEven]
  refine ⟨hp, ?_⟩
  simp only [fast_checkout]
  rw [checkoutLoop_cons_some db.product it [] 0 [] d hres]
  simp only [checkoutLoop, hp, zero_mul, add_zero, zero_add, List.nil_append]
  rw [hr]
  simp [create_document]

/-- C10 witness: checking out quantity 2 of a priceless product yields a
total of 0 and a persisted zero-total order. -/
theorem missing_price_defaults_to_zero_witness :
    resolveItem dbNoPrice.product ⟨idA, none, 2⟩ = some prodNoPrice ∧
    docGet prodNoPrice "price" = none ∧
    (priceOf prodNoPrice = 0 ∧
     fast_checkout (some dbNoPrice) ⟨"u@x.com", [⟨idA, none, 2⟩]⟩
         "cccccccccccccccccccccccc" =
       (Except.ok ("cccccccccccccccccccccccc", 0),
        some { dbNoPrice with order := dbNoPrice.order ++
          [("cccccccccccccccccccccccc",
            ⟨"u@x.com", [⟨docGet prodNoPrice "title", none, 2, 0, 0⟩],
             0, "created"⟩)] })) :=
  ⟨by decide, by decide,
   missing_price_defaults_to_zero dbNoPrice ⟨idA, none, 2⟩ prodNoPrice
     "u@x.com" "cccccccccccccccccccccccc" (by decide) (by decide)⟩
